import Mathlib

/-!
Verification of the decode-orchestration and result-marshaling layer in
src/BarcodeReader.cpp (an Emscripten wrapper around the ZXing barcode engine).

The wrapper itself is embedded faithfully from the source.  The two external
collaborators it drives — the barcode decode engine (ZXing's ReadBarcodes,
which may throw) and the compressed-image codec (stb_image's
stbi_load_from_memory, which may fail) — live outside src/ and are taken as
function parameters, so every theorem quantifies over their behaviour.
Library-owned details that the claims touch (the barcode-format enum and its
canonical names, the format-filter parser, the rendering of a per-symbol
error as a string) are modelled from the spec, as noted on each definition.

Exceptions are represented as data: the body of readBarcodes computes in an
explicit outcome type and the catch-clauses of the source map each failure to
a single synthetic result record, so the Lean readBarcodes is a total
function into List ReadResult — by construction no exception can propagate
to the caller, mirroring the boundary contract.
-/

/-- Pixel layout tags of the engine's image view: the wrapper uses Lum
(single-channel luminance) for codec output and RGBA for raw pixmaps. -/
inductive ImageFormat where
  | Lum
  | RGBA
deriving DecidableEq

/-- Non-owning image descriptor handed to the decode engine
(ZXing ImageView): pixel data plus caller-declared dimensions.  The
pixel buffer is modelled as the byte sequence the pointer designates. -/
structure ImageView where
  data : List Nat
  width : Int
  height : Int
  format : ImageFormat
deriving DecidableEq

/-- Modelled from the spec: the barcode format enumeration lives in the
external ZXing library, not under src/; the spec only requires a set of
supported formats each with a canonical string name. -/
inductive BarcodeFormat where
  | Aztec
  | Codabar
  | Code39
  | Code93
  | Code128
  | DataMatrix
  | EAN8
  | EAN13
  | ITF
  | PDF417
  | QRCode
  | UPCA
  | UPCE
deriving DecidableEq

/-- Modelled from the spec: canonical string name of each barcode format
("format enum → its canonical string name", §4.4). -/
def BarcodeFormat.toStringName : BarcodeFormat → String
  | .Aztec => "Aztec"
  | .Codabar => "Codabar"
  | .Code39 => "Code39"
  | .Code93 => "Code93"
  | .Code128 => "Code128"
  | .DataMatrix => "DataMatrix"
  | .EAN8 => "EAN-8"
  | .EAN13 => "EAN-13"
  | .ITF => "ITF"
  | .PDF417 => "PDF417"
  | .QRCode => "QRCode"
  | .UPCA => "UPC-A"
  | .UPCE => "UPC-E"

/-- All supported formats, the selection an empty filter string denotes. -/
def allFormats : List BarcodeFormat :=
  [.Aztec, .Codabar, .Code39, .Code93, .Code128, .DataMatrix,
   .EAN8, .EAN13, .ITF, .PDF417, .QRCode, .UPCA, .UPCE]

/-- Modelled from the spec: lookup of a single format name; an unrecognized
name yields none.  The real lookup is ZXing's BarcodeFormatFromString,
outside src/. -/
def BarcodeFormatFromString (s : String) : Option BarcodeFormat :=
  allFormats.find? (fun f => BarcodeFormat.toStringName f = s)

/-- Message of the typed failure raised for an unrecognized format name. -/
def invalidFormatMsg (name : String) : String :=
  "Invalid barcode format: " ++ name

/-- Modelled from the spec: parse a list of format names, failing on the
first unrecognized one ("Malformed format names fail the whole request",
§4.2). -/
def parseFormatNames : List String → Except String (List BarcodeFormat)
  | [] => Except.ok []
  | name :: rest =>
    match BarcodeFormatFromString name with
    | none => Except.error (invalidFormatMsg name)
    | some f =>
      match parseFormatNames rest with
      | Except.error msg => Except.error msg
      | Except.ok fs => Except.ok (f :: fs)

/-- Splitting a character list at commas, accumulating the current chunk. -/
def splitCommaAux : List Char → List Char → List String
  | [], acc => [String.mk acc.reverse]
  | c :: cs, acc =>
    if c = ',' then String.mk acc.reverse :: splitCommaAux cs []
    else splitCommaAux cs (c :: acc)

/-- Splitting a string into its comma-separated components. -/
def splitComma (s : String) : List String := splitCommaAux s.data []

/-- Modelled from the spec: ZXing's BarcodeFormatsFromString (outside src/).
An empty filter string selects all supported formats; otherwise the string
is a comma-separated list of format names and an unrecognized name raises a
typed failure (§4.2). -/
def BarcodeFormatsFromString (s : String) : Except String (List BarcodeFormat) :=
  if s = "" then Except.ok allFormats
  else parseFormatNames (splitComma s)

/-- Engine option block (ZXing ReaderOptions) as far as this layer sets it:
four try* booleans, the format set, the result cap, and the returnErrors
switch the wrapper leaves at its engine default (line 42 is commented out). -/
structure ReaderOptions where
  tryHarder : Bool
  tryRotate : Bool
  tryInvert : Bool
  tryDownscale : Bool
  formats : List BarcodeFormat
  maxSymbols : Int
  returnErrors : Bool
deriving DecidableEq

/-- Engine-default option block a freshly constructed ReaderOptions holds
before the wrapper's setters run. -/
def ReaderOptions.init : ReaderOptions :=
  ⟨true, true, true, true, [], 255, false⟩

def ReaderOptions.setTryHarder (o : ReaderOptions) (b : Bool) : ReaderOptions :=
  { o with tryHarder := b }

def ReaderOptions.setTryRotate (o : ReaderOptions) (b : Bool) : ReaderOptions :=
  { o with tryRotate := b }

def ReaderOptions.setTryInvert (o : ReaderOptions) (b : Bool) : ReaderOptions :=
  { o with tryInvert := b }

def ReaderOptions.setTryDownscale (o : ReaderOptions) (b : Bool) : ReaderOptions :=
  { o with tryDownscale := b }

def ReaderOptions.setFormats (o : ReaderOptions) (fs : List BarcodeFormat) : ReaderOptions :=
  { o with formats := fs }

def ReaderOptions.setMaxNumberOfSymbols (o : ReaderOptions) (n : Int) : ReaderOptions :=
  { o with maxSymbols := n }

/-- Integer point (ZXing PointI). -/
structure PointI where
  x : Int
  y : Int
deriving DecidableEq

/-- The zero point a value-initialized PointI holds. -/
def PointI.zero : PointI := ⟨0, 0⟩

/-- Quadrilateral position of a symbol (ZXing Position): four corner points
in clockwise order starting at the top-left. -/
structure Position where
  topLeft : PointI
  topRight : PointI
  bottomRight : PointI
  bottomLeft : PointI
deriving DecidableEq

/-- The all-zero position a value-initialized Position holds. -/
def Position.zero : Position := ⟨PointI.zero, PointI.zero, PointI.zero, PointI.zero⟩

/-- Modelled from the spec: the kind tag of a per-symbol decode error
(ZXing Error::Type, outside src/). -/
inductive ErrorType where
  | Format
  | Checksum
  | Unsupported
deriving DecidableEq

/-- Modelled from the spec: a per-symbol decode error (ZXing Error, outside
src/): a kind tag plus a message. -/
structure ZError where
  type : ErrorType
  msg : String
deriving DecidableEq

def ErrorType.name : ErrorType → String
  | .Format => "FormatError"
  | .Checksum => "ChecksumError"
  | .Unsupported => "Unsupported"

/-- Modelled from the spec: rendering of a symbol's optional decode error as
a string (ZXing ToString(Error), outside src/): an absent error renders as
the empty string, a present error as a non-empty description. -/
def errorToString : Option ZError → String
  | none => ""
  | some e => if e.msg = "" then e.type.name else e.type.name ++ " (" ++ e.msg ++ ")"

/-- One located symbol as returned by the decode engine (ZXing Barcode,
consumed not owned): format tag, text, raw payload bytes, optional
per-symbol error, quadrilateral position, symbology identifier. -/
structure Barcode where
  format : BarcodeFormat
  text : String
  bytes : List Nat
  error : Option ZError
  position : Position
  symbologyIdentifier : String
deriving DecidableEq

/-- The boundary record struct ReadResult of src/BarcodeReader.cpp lines
21-29.  The bytes field (a JS Uint8Array in the source) is modelled as the
byte sequence it carries; a default-constructed value carries none. -/
structure ReadResult where
  format : String
  text : String
  bytes : List Nat
  error : String
  position : Position
  symbologyIdentifier : String
deriving DecidableEq

/-- A value-initialized ReadResult: every field empty/zero. -/
def ReadResult.empty : ReadResult := ⟨"", "", [], "", Position.zero, ""⟩

/-- The single-element failure record the catch-clauses build at lines 65,
67 and 80: only the error message is set, every other field is left at its
value-initialized default. -/
def failureResult (msg : String) : ReadResult :=
  ⟨"", "", [], msg, Position.zero, ""⟩

/-- Outcome of one call into the external decode engine: a normal return of
zero or more symbols, a typed exception carrying a message (caught at line
64 as std::exception), or an untyped exception (caught at line 66). -/
inductive EngineOutcome where
  | ok (symbols : List Barcode)
  | typedExcept (msg : String)
  | unknownExcept
deriving DecidableEq

/-- The external decode engine (ZXing ReadBarcodes, outside src/), taken as
a parameter: its observable behaviour on one call. -/
def Engine := ImageView → ReaderOptions → EngineOutcome

/-- The external compressed-image codec (stb_image's stbi_load_from_memory,
outside src/), taken as a parameter: on success it yields the decoded
single-channel pixel buffer with its width and height, on failure none. -/
def Codec := List Nat → Option (List Nat × Int × Int)

/-- The option block readBarcodes builds at lines 35-41: a fresh
ReaderOptions with tryHarder, tryRotate, tryInvert and tryDownscale all set
from the one tryHarder argument, then the parsed formats and the result
cap.  Line 42 (setReturnErrors) is commented out in the source, so
returnErrors keeps its engine default. -/
def makeReaderOptions (tryHarder : Bool) (fmts : List BarcodeFormat) (maxSymbols : Int) :
    ReaderOptions :=
  (((((ReaderOptions.init.setTryHarder tryHarder).setTryRotate
      tryHarder).setTryInvert tryHarder).setTryDownscale
      tryHarder).setFormats fmts).setMaxNumberOfSymbols maxSymbols

/-- The per-symbol transcription performed by the loop at lines 51-61:
format name, text, a copy of the payload bytes, the error rendered as a
string, the position, and the symbology identifier. -/
def marshalSymbol (b : Barcode) : ReadResult :=
  ⟨BarcodeFormat.toStringName b.format, b.text, b.bytes,
   errorToString b.error, b.position, b.symbologyIdentifier⟩

/-- readBarcodes, src/BarcodeReader.cpp lines 32-70: build the options,
parse the format filter (a typed exception from the parser is caught by the
same handler as an engine exception), call the engine once, marshal each
returned symbol in order; a typed exception becomes a single record carrying
its message, an untyped one a single record carrying "Unknown error". -/
def readBarcodes (engine : Engine) (iv : ImageView) (tryHarder : Bool)
    (format : String) (maxSymbols : Int) : List ReadResult :=
  match BarcodeFormatsFromString format with
  | Except.error msg => [failureResult msg]
  | Except.ok fmts =>
    match engine iv (makeReaderOptions tryHarder fmts maxSymbols) with
    | EngineOutcome.ok barcodes => barcodes.map marshalSymbol
    | EngineOutcome.typedExcept msg => [failureResult msg]
    | EngineOutcome.unknownExcept => [failureResult "Unknown error"]

/-- readBarcodesFromImage, lines 73-84: run the codec on the compressed
bytes; on failure return the single "Error loading image" record, on
success decode the luminance view. -/
def readBarcodesFromImage (codec : Codec) (engine : Engine) (buffer : List Nat)
    (tryHarder : Bool) (format : String) (maxSymbols : Int) : List ReadResult :=
  match codec buffer with
  | none => [failureResult "Error loading image"]
  | some (data, width, height) =>
    readBarcodes engine ⟨data, width, height, ImageFormat.Lum⟩ tryHarder format maxSymbols

/-- FirstOrDefault (ZXing utility used at lines 90 and 104): the first
element of the sequence, or a value-initialized record when it is empty. -/
def FirstOrDefault (l : List ReadResult) : ReadResult :=
  l.headD ReadResult.empty

/-- readBarcodeFromImage, lines 87-91. -/
def readBarcodeFromImage (codec : Codec) (engine : Engine) (buffer : List Nat)
    (tryHarder : Bool) (format : String) : ReadResult :=
  FirstOrDefault (readBarcodesFromImage codec engine buffer tryHarder format 1)

/-- readBarcodesFromPixmap, lines 94-98: wrap the caller's buffer and
dimensions as an RGBA view, no codec, no validation. -/
def readBarcodesFromPixmap (engine : Engine) (buffer : List Nat)
    (imgWidth : Int) (imgHeight : Int) (tryHarder : Bool) (format : String)
    (maxSymbols : Int) : List ReadResult :=
  readBarcodes engine ⟨buffer, imgWidth, imgHeight, ImageFormat.RGBA⟩ tryHarder format maxSymbols

/-- readBarcodeFromPixmap, lines 101-105. -/
def readBarcodeFromPixmap (engine : Engine) (buffer : List Nat)
    (imgWidth : Int) (imgHeight : Int) (tryHarder : Bool) (format : String) : ReadResult :=
  FirstOrDefault (readBarcodesFromPixmap engine buffer imgWidth imgHeight tryHarder format 1)

/-! ### Helper lemmas -/

theorem append_ne_empty (s t : String) (h : s ≠ "") : s ++ t ≠ "" := by
  intro he
  apply h
  have hl := congrArg String.length he
  rw [String.length_append] at hl
  have h0 : ("" : String).length = 0 := rfl
  rw [h0] at hl
  have h1 : s.length = 0 := by omega
  exact String.ext (List.eq_nil_of_length_eq_zero h1)

theorem invalidFormatMsg_ne_empty (name : String) : invalidFormatMsg name ≠ "" :=
  append_ne_empty _ _ (by decide)

theorem errorType_name_ne_empty (t : ErrorType) : ErrorType.name t ≠ "" := by
  cases t <;> decide

theorem errorToString_some_ne_empty (e : ZError) : errorToString (some e) ≠ "" := by
  unfold errorToString
  by_cases h : e.msg = ""
  · simpa [h] using errorType_name_ne_empty e.type
  · simp only [h, if_false]
    exact append_ne_empty _ _ (append_ne_empty _ _ (append_ne_empty _ _ (errorType_name_ne_empty e.type)))

theorem parseFormatNames_error_of_mem {l : List String} {name : String}
    (hmem : name ∈ l) (hbad : BarcodeFormatFromString name = none) :
    ∃ nm, parseFormatNames l = Except.error (invalidFormatMsg nm) := by
  induction l with
  | nil => cases hmem
  | cons a rest ih =>
    cases hfa : BarcodeFormatFromString a with
    | none => exact ⟨a, by simp [parseFormatNames, hfa]⟩
    | some f =>
      rcases List.mem_cons.mp hmem with h | h
      · rw [h] at hbad
        rw [hbad] at hfa
        exact Option.noConfusion hfa
      · obtain ⟨nm, hnm⟩ := ih h
        exact ⟨nm, by simp [parseFormatNames, hfa, hnm]⟩

/-! ### Claim theorems -/

/-- C1: if the decode engine call raises a typed exception then readBarcodes
returns a sequence of exactly one record whose error field is the
exception's message and whose remaining fields are empty/default; if it
raises an untyped exception, the single record carries "Unknown error".  No
exception can propagate: the embedded readBarcodes is total into
List ReadResult, every engine outcome mapping to a returned value. -/
theorem readBarcodes_exceptions_to_records
    (e₁ e₂ : Engine) (iv : ImageView) (tryHarder : Bool) (format : String)
    (maxSymbols : Int) (fmts : List BarcodeFormat) (msg : String)
    (hfmt : BarcodeFormatsFromString format = Except.ok fmts)
    (h₁ : e₁ iv (makeReaderOptions tryHarder fmts maxSymbols) = EngineOutcome.typedExcept msg)
    (h₂ : e₂ iv (makeReaderOptions tryHarder fmts maxSymbols) = EngineOutcome.unknownExcept) :
    readBarcodes e₁ iv tryHarder format maxSymbols
      = [⟨"", "", [], msg, Position.zero, ""⟩] ∧
    readBarcodes e₂ iv tryHarder format maxSymbols
      = [⟨"", "", [], "Unknown error", Position.zero, ""⟩] := by
  constructor <;> simp [readBarcodes, hfmt, h₁, h₂, failureResult]

/-- Witness for C1 at a concrete engine, image view and options. -/
theorem readBarcodes_exceptions_to_records_witness :
    readBarcodes (fun _ _ => EngineOutcome.typedExcept "bad alloc")
        ⟨[], 0, 0, ImageFormat.Lum⟩ false "" 1
      = [⟨"", "", [], "bad alloc", Position.zero, ""⟩] ∧
    readBarcodes (fun _ _ => EngineOutcome.unknownExcept)
        ⟨[], 0, 0, ImageFormat.Lum⟩ false "" 1
      = [⟨"", "", [], "Unknown error", Position.zero, ""⟩] :=
  readBarcodes_exceptions_to_records _ _ _ false "" 1 allFormats "bad alloc" rfl rfl rfl

/-- C2: whenever the external codec fails to parse the input buffer (a
zero-length buffer included), readBarcodesFromImage returns exactly one
record whose error field is non-empty and whose other fields are
empty/zero, and no barcode decoding is attempted — the result is the same
under every engine; in particular the sequence is never empty. -/
theorem readBarcodesFromImage_codec_failure
    (codec : Codec) (e₁ e₂ : Engine) (buffer : List Nat) (tryHarder : Bool)
    (format : String) (maxSymbols : Int)
    (hc : codec buffer = none) :
    readBarcodesFromImage codec e₁ buffer tryHarder format maxSymbols
      = [⟨"", "", [], "Error loading image", Position.zero, ""⟩] ∧
    "Error loading image" ≠ "" ∧
    readBarcodesFromImage codec e₁ buffer tryHarder format maxSymbols
      = readBarcodesFromImage codec e₂ buffer tryHarder format maxSymbols := by
  refine ⟨?_, by decide, ?_⟩ <;> simp [readBarcodesFromImage, hc, failureResult]

/-- Witness for C2 at a codec that rejects every buffer, applied to the
zero-length buffer. -/
theorem readBarcodesFromImage_codec_failure_witness :
    readBarcodesFromImage (fun _ => none) (fun _ _ => EngineOutcome.ok [])
        [] false "" 1
      = [⟨"", "", [], "Error loading image", Position.zero, ""⟩] :=
  (readBarcodesFromImage_codec_failure (fun _ => none)
    (fun _ _ => EngineOutcome.ok []) (fun _ _ => EngineOutcome.unknownExcept)
    [] false "" 1 rfl).1

/-- C3: readBarcodeFromImage equals the first element of
readBarcodesFromImage with maxSymbols 1 when that sequence is non-empty,
and the all-empty default record (whose error is empty) when it is empty;
likewise readBarcodeFromPixmap relative to readBarcodesFromPixmap. -/
theorem readBarcode_single_of_many
    (codec : Codec) (engine : Engine) (buffer : List Nat) (w h : Int)
    (tryHarder : Bool) (format : String) :
    (∀ r rs, readBarcodesFromImage codec engine buffer tryHarder format 1 = r :: rs →
        readBarcodeFromImage codec engine buffer tryHarder format = r) ∧
    (readBarcodesFromImage codec engine buffer tryHarder format 1 = [] →
        readBarcodeFromImage codec engine buffer tryHarder format
          = ⟨"", "", [], "", Position.zero, ""⟩) ∧
    (∀ r rs, readBarcodesFromPixmap engine buffer w h tryHarder format 1 = r :: rs →
        readBarcodeFromPixmap engine buffer w h tryHarder format = r) ∧
    (readBarcodesFromPixmap engine buffer w h tryHarder format 1 = [] →
        readBarcodeFromPixmap engine buffer w h tryHarder format
          = ⟨"", "", [], "", Position.zero, ""⟩) := by
  refine ⟨?_, ?_, ?_, ?_⟩ <;> intros <;>
    simp_all [readBarcodeFromImage, readBarcodeFromPixmap, FirstOrDefault,
      ReadResult.empty]

/-- Witness for C3: a failing codec makes the many-result sequence a
singleton whose head the single-result variant returns, and an engine
finding nothing makes the pixmap sequence empty so the single-result
variant returns the default record. -/
theorem readBarcode_single_of_many_witness :
    readBarcodeFromImage (fun _ => none) (fun _ _ => EngineOutcome.ok [])
        [] false "" = ⟨"", "", [], "Error loading image", Position.zero, ""⟩ ∧
    readBarcodeFromPixmap (fun _ _ => EngineOutcome.ok []) [] 10 10 false ""
      = ⟨"", "", [], "", Position.zero, ""⟩ :=
  ⟨(readBarcode_single_of_many (fun _ => none) (fun _ _ => EngineOutcome.ok [])
      [] 10 10 false "").1 ⟨"", "", [], "Error loading image", Position.zero, ""⟩ [] rfl,
   (readBarcode_single_of_many (fun _ => none) (fun _ _ => EngineOutcome.ok [])
      [] 10 10 false "").2.2.2 rfl⟩

/-- C4: the options readBarcodes passes to the engine have tryRotate,
tryInvert and tryDownscale each equal to the caller's tryHarder flag, and
any two engines that agree on all option blocks whose three derived flags
equal tryHarder are indistinguishable under readBarcodes — the engine is
never shown options on which the four try flags differ. -/
theorem readBarcodes_try_flags_uniform
    (tryHarder : Bool) (fmts : List BarcodeFormat) (maxSymbols : Int) :
    ((makeReaderOptions tryHarder fmts maxSymbols).tryHarder = tryHarder ∧
     (makeReaderOptions tryHarder fmts maxSymbols).tryRotate = tryHarder ∧
     (makeReaderOptions tryHarder fmts maxSymbols).tryInvert = tryHarder ∧
     (makeReaderOptions tryHarder fmts maxSymbols).tryDownscale = tryHarder) ∧
    ∀ (e₁ e₂ : Engine),
      (∀ iv o, o.tryRotate = o.tryHarder → o.tryInvert = o.tryHarder →
        o.tryDownscale = o.tryHarder → e₁ iv o = e₂ iv o) →
      ∀ iv format, readBarcodes e₁ iv tryHarder format maxSymbols
        = readBarcodes e₂ iv tryHarder format maxSymbols := by
  refine ⟨⟨rfl, rfl, rfl, rfl⟩, ?_⟩
  intro e₁ e₂ hagree iv format
  unfold readBarcodes
  cases BarcodeFormatsFromString format with
  | error msg => rfl
  | ok fs =>
    have h := hagree iv (makeReaderOptions tryHarder fs maxSymbols) rfl rfl rfl
    simp only [h]

/-- Witness for C4 at concrete flags, formats, cap and engines. -/
theorem readBarcodes_try_flags_uniform_witness :
    ((makeReaderOptions true allFormats 1).tryHarder = true ∧
     (makeReaderOptions true allFormats 1).tryRotate = true ∧
     (makeReaderOptions true allFormats 1).tryInvert = true ∧
     (makeReaderOptions true allFormats 1).tryDownscale = true) ∧
    readBarcodes (fun _ _ => EngineOutcome.ok []) ⟨[], 0, 0, ImageFormat.RGBA⟩ true "" 1
      = readBarcodes (fun _ _ => EngineOutcome.ok []) ⟨[], 0, 0, ImageFormat.RGBA⟩ true "" 1 :=
  ⟨(readBarcodes_try_flags_uniform true allFormats 1).1,
   (readBarcodes_try_flags_uniform true allFormats 1).2
     (fun _ _ => EngineOutcome.ok []) (fun _ _ => EngineOutcome.ok [])
     (fun _ _ _ _ _ => rfl) ⟨[], 0, 0, ImageFormat.RGBA⟩ ""⟩

/-- C5: a non-empty format filter containing an unrecognized name makes the
whole request fail with a single record carrying a non-empty error, and the
failure is the same under every engine, image, flag and cap — the decode
engine is never invoked for such a request; the empty filter string instead
parses to the full set of supported formats. -/
theorem readBarcodes_invalid_format_rejected
    (format : String) (name : String)
    (hne : format ≠ "")
    (hmem : name ∈ splitComma format)
    (hbad : BarcodeFormatFromString name = none) :
    (∃ msg, msg ≠ "" ∧
      ∀ (e : Engine) (iv : ImageView) (tryHarder : Bool) (maxSymbols : Int),
        readBarcodes e iv tryHarder format maxSymbols = [failureResult msg]) ∧
    BarcodeFormatsFromString "" = Except.ok allFormats := by
  constructor
  · obtain ⟨nm, hnm⟩ := parseFormatNames_error_of_mem hmem hbad
    refine ⟨invalidFormatMsg nm, invalidFormatMsg_ne_empty nm, ?_⟩
    intro e iv tryHarder maxSymbols
    unfold readBarcodes BarcodeFormatsFromString
    rw [if_neg hne, hnm]
  · rfl

/-- Witness for C5 at the filter string "NotARealFormat". -/
theorem readBarcodes_invalid_format_rejected_witness :
    (∃ msg, msg ≠ "" ∧
      ∀ (e : Engine) (iv : ImageView) (tryHarder : Bool) (maxSymbols : Int),
        readBarcodes e iv tryHarder "NotARealFormat" maxSymbols = [failureResult msg]) ∧
    BarcodeFormatsFromString "" = Except.ok allFormats :=
  readBarcodes_invalid_format_rejected "NotARealFormat" "NotARealFormat"
    (by decide) (by decide) (by decide)

/-- C6: when the engine returns a sequence of symbols, readBarcodes returns
their transcriptions in the same order, one record per symbol, and each
transcription is field-by-field: the format's canonical name, the text and
symbology identifier unchanged, the error rendered as a string, the
position copied point-by-point in clockwise topLeft, topRight, bottomRight,
bottomLeft order, and the payload bytes copied exactly. -/
theorem readBarcodes_marshals_each_symbol
    (e : Engine) (iv : ImageView) (tryHarder : Bool) (format : String)
    (maxSymbols : Int) (fmts : List BarcodeFormat) (syms : List Barcode)
    (hfmt : BarcodeFormatsFromString format = Except.ok fmts)
    (heng : e iv (makeReaderOptions tryHarder fmts maxSymbols) = EngineOutcome.ok syms) :
    readBarcodes e iv tryHarder format maxSymbols = syms.map marshalSymbol ∧
    ∀ b : Barcode, marshalSymbol b =
      ⟨BarcodeFormat.toStringName b.format, b.text, b.bytes, errorToString b.error,
       ⟨b.position.topLeft, b.position.topRight, b.position.bottomRight,
        b.position.bottomLeft⟩,
       b.symbologyIdentifier⟩ := by
  constructor
  · simp [readBarcodes, hfmt, heng]
  · intro b
    rfl

/-- Witness for C6: one engine-returned symbol with payload bytes 1, 2, 3
is transcribed into exactly one record carrying those bytes and every other
field transcribed. -/
theorem readBarcodes_marshals_each_symbol_witness :
    readBarcodes
        (fun _ _ => EngineOutcome.ok
          [⟨BarcodeFormat.QRCode, "hello", [1, 2, 3], none,
            ⟨⟨0, 0⟩, ⟨9, 0⟩, ⟨9, 9⟩, ⟨0, 9⟩⟩, "]Q1"⟩])
        ⟨[], 10, 10, ImageFormat.RGBA⟩ false "" 1
      = [⟨"QRCode", "hello", [1, 2, 3], "", ⟨⟨0, 0⟩, ⟨9, 0⟩, ⟨9, 9⟩, ⟨0, 9⟩⟩, "]Q1"⟩] :=
  (readBarcodes_marshals_each_symbol
    (fun _ _ => EngineOutcome.ok
      [⟨BarcodeFormat.QRCode, "hello", [1, 2, 3], none,
        ⟨⟨0, 0⟩, ⟨9, 0⟩, ⟨9, 9⟩, ⟨0, 9⟩⟩, "]Q1"⟩])
    ⟨[], 10, 10, ImageFormat.RGBA⟩ false "" 1 allFormats
    [⟨BarcodeFormat.QRCode, "hello", [1, 2, 3], none,
      ⟨⟨0, 0⟩, ⟨9, 0⟩, ⟨9, 9⟩, ⟨0, 9⟩⟩, "]Q1"⟩] rfl rfl).1

/-- C7: an engine run that finds zero symbols makes readBarcodes return the
empty sequence — not a failure record — and hence readBarcodesFromPixmap on
a pixmap in which the engine finds nothing returns the empty sequence. -/
theorem readBarcodes_empty_when_none_found
    (e : Engine) (iv : ImageView) (tryHarder : Bool) (format : String)
    (maxSymbols : Int) (fmts : List BarcodeFormat)
    (hfmt : BarcodeFormatsFromString format = Except.ok fmts)
    (heng : e iv (makeReaderOptions tryHarder fmts maxSymbols) = EngineOutcome.ok []) :
    readBarcodes e iv tryHarder format maxSymbols = [] ∧
    ∀ buffer w h,
      e ⟨buffer, w, h, ImageFormat.RGBA⟩ (makeReaderOptions tryHarder fmts maxSymbols)
        = EngineOutcome.ok [] →
      readBarcodesFromPixmap e buffer w h tryHarder format maxSymbols = [] := by
  constructor
  · simp [readBarcodes, hfmt, heng]
  · intro buffer w h heng2
    simp [readBarcodesFromPixmap, readBarcodes, hfmt, heng2]

/-- Witness for C7: a 10 by 10 pixmap on which the engine finds no symbol
yields the empty sequence. -/
theorem readBarcodes_empty_when_none_found_witness :
    readBarcodes (fun _ _ => EngineOutcome.ok []) ⟨[], 10, 10, ImageFormat.RGBA⟩
        false "" 1 = [] ∧
    readBarcodesFromPixmap (fun _ _ => EngineOutcome.ok []) [] 10 10 false "" 1 = [] :=
  ⟨(readBarcodes_empty_when_none_found (fun _ _ => EngineOutcome.ok [])
      ⟨[], 10, 10, ImageFormat.RGBA⟩ false "" 1 allFormats rfl rfl).1,
   (readBarcodes_empty_when_none_found (fun _ _ => EngineOutcome.ok [])
      ⟨[], 10, 10, ImageFormat.RGBA⟩ false "" 1 allFormats rfl rfl).2 [] 10 10 rfl⟩

/-- C8: when the engine's returned sequence contains, at some index, a
located symbol that failed to decode, the returned sequence has a record at
that index carrying that symbol's non-empty error, the sequence keeps one
record per symbol, and every other record is still its own symbol's
transcription — a per-symbol error is not a whole-request failure. -/
theorem readBarcodes_per_symbol_error_isolated
    (e : Engine) (iv : ImageView) (tryHarder : Bool) (format : String)
    (maxSymbols : Int) (fmts : List BarcodeFormat) (syms : List Barcode)
    (i : Nat) (b : Barcode) (berr : ZError)
    (hfmt : BarcodeFormatsFromString format = Except.ok fmts)
    (heng : e iv (makeReaderOptions tryHarder fmts maxSymbols) = EngineOutcome.ok syms)
    (hb : syms[i]? = some b) (herr : b.error = some berr) :
    (readBarcodes e iv tryHarder format maxSymbols).length = syms.length ∧
    (readBarcodes e iv tryHarder format maxSymbols)[i]? = some (marshalSymbol b) ∧
    (marshalSymbol b).error ≠ "" ∧
    ∀ (j : Nat) (bj : Barcode), syms[j]? = some bj →
      (readBarcodes e iv tryHarder format maxSymbols)[j]? = some (marshalSymbol bj) := by
  have hres : readBarcodes e iv tryHarder format maxSymbols = syms.map marshalSymbol := by
    simp [readBarcodes, hfmt, heng]
  refine ⟨by simp [hres], by simp [hres, hb], ?_, ?_⟩
  · show errorToString b.error ≠ ""
    rw [herr]
    exact errorToString_some_ne_empty berr
  · intro j bj hbj
    simp [hres, hbj]

/-- Witness for C8: of two engine-returned symbols the second carries a
checksum error; the call still yields two records, the second with a
non-empty error, the first untouched. -/
theorem readBarcodes_per_symbol_error_isolated_witness :
    (readBarcodes
        (fun _ _ => EngineOutcome.ok
          [⟨BarcodeFormat.EAN13, "4006381333931", [4, 0], none,
            Position.zero, "]E0"⟩,
           ⟨BarcodeFormat.EAN13, "", [], some ⟨ErrorType.Checksum, ""⟩,
            Position.zero, "]E0"⟩])
        ⟨[], 10, 10, ImageFormat.RGBA⟩ false "" 2).length = 2 ∧
    (readBarcodes
        (fun _ _ => EngineOutcome.ok
          [⟨BarcodeFormat.EAN13, "4006381333931", [4, 0], none,
            Position.zero, "]E0"⟩,
           ⟨BarcodeFormat.EAN13, "", [], some ⟨ErrorType.Checksum, ""⟩,
            Position.zero, "]E0"⟩])
        ⟨[], 10, 10, ImageFormat.RGBA⟩ false "" 2)[1]?
      = some (marshalSymbol ⟨BarcodeFormat.EAN13, "", [],
          some ⟨ErrorType.Checksum, ""⟩, Position.zero, "]E0"⟩) ∧
    (marshalSymbol ⟨BarcodeFormat.EAN13, "", [], some ⟨ErrorType.Checksum, ""⟩,
        Position.zero, "]E0"⟩).error ≠ "" ∧
    ∀ (j : Nat) (bj : Barcode),
      ([⟨BarcodeFormat.EAN13, "4006381333931", [4, 0], none, Position.zero, "]E0"⟩,
        ⟨BarcodeFormat.EAN13, "", [], some ⟨ErrorType.Checksum, ""⟩,
         Position.zero, "]E0"⟩] : List Barcode)[j]? = some bj →
      (readBarcodes
          (fun _ _ => EngineOutcome.ok
            [⟨BarcodeFormat.EAN13, "4006381333931", [4, 0], none,
              Position.zero, "]E0"⟩,
             ⟨BarcodeFormat.EAN13, "", [], some ⟨ErrorType.Checksum, ""⟩,
              Position.zero, "]E0"⟩])
          ⟨[], 10, 10, ImageFormat.RGBA⟩ false "" 2)[j]? = some (marshalSymbol bj) :=
  readBarcodes_per_symbol_error_isolated
    (fun _ _ => EngineOutcome.ok
      [⟨BarcodeFormat.EAN13, "4006381333931", [4, 0], none, Position.zero, "]E0"⟩,
       ⟨BarcodeFormat.EAN13, "", [], some ⟨ErrorType.Checksum, ""⟩,
        Position.zero, "]E0"⟩])
    ⟨[], 10, 10, ImageFormat.RGBA⟩ false "" 2 allFormats
    [⟨BarcodeFormat.EAN13, "4006381333931", [4, 0], none, Position.zero, "]E0"⟩,
     ⟨BarcodeFormat.EAN13, "", [], some ⟨ErrorType.Checksum, ""⟩,
      Position.zero, "]E0"⟩]
    1 ⟨BarcodeFormat.EAN13, "", [], some ⟨ErrorType.Checksum, ""⟩,
       Position.zero, "]E0"⟩ ⟨ErrorType.Checksum, ""⟩
    rfl rfl rfl rfl

/-- C9: the option block readBarcodes builds carries the caller's
maxSymbols unchanged, and any two engines that agree on all option blocks
whose maxSymbols equals the caller's value are indistinguishable under
readBarcodes — the engine is never shown a clamped, rescaled or substituted
cap. -/
theorem readBarcodes_maxSymbols_forwarded
    (tryHarder : Bool) (fmts : List BarcodeFormat) (maxSymbols : Int) :
    (makeReaderOptions tryHarder fmts maxSymbols).maxSymbols = maxSymbols ∧
    ∀ (e₁ e₂ : Engine),
      (∀ iv o, o.maxSymbols = maxSymbols → e₁ iv o = e₂ iv o) →
      ∀ iv format, readBarcodes e₁ iv tryHarder format maxSymbols
        = readBarcodes e₂ iv tryHarder format maxSymbols := by
  refine ⟨rfl, ?_⟩
  intro e₁ e₂ hagree iv format
  unfold readBarcodes
  cases BarcodeFormatsFromString format with
  | error msg => rfl
  | ok fs =>
    have h := hagree iv (makeReaderOptions tryHarder fs maxSymbols) rfl
    simp only [h]

/-- Witness for C9 at a cap of 937, far beyond any plausible clamp. -/
theorem readBarcodes_maxSymbols_forwarded_witness :
    (makeReaderOptions false allFormats 937).maxSymbols = 937 ∧
    readBarcodes (fun _ _ => EngineOutcome.ok []) ⟨[], 0, 0, ImageFormat.RGBA⟩
        false "" 937
      = readBarcodes (fun _ _ => EngineOutcome.ok []) ⟨[], 0, 0, ImageFormat.RGBA⟩
        false "" 937 :=
  ⟨(readBarcodes_maxSymbols_forwarded false allFormats 937).1,
   (readBarcodes_maxSymbols_forwarded false allFormats 937).2
     (fun _ _ => EngineOutcome.ok []) (fun _ _ => EngineOutcome.ok [])
     (fun _ _ _ => rfl) ⟨[], 0, 0, ImageFormat.RGBA⟩ ""⟩

/-- C10: the pixmap entry points wrap the caller's buffer and dimensions
as an RGBA view and hand them to readBarcodes as-is, for every input and
with no codec involved, and their every possible output is fully accounted
for by the format parse and the engine outcome — so the image-load failure
branch of readBarcodesFromImage is unreachable from them and the only
failure records they can return are those readBarcodes builds from
exceptions. -/
theorem readBarcodesFromPixmap_no_image_decode
    (e : Engine) (buffer : List Nat) (w h : Int) (tryHarder : Bool)
    (format : String) (maxSymbols : Int) :
    readBarcodesFromPixmap e buffer w h tryHarder format maxSymbols
      = readBarcodes e ⟨buffer, w, h, ImageFormat.RGBA⟩ tryHarder format maxSymbols ∧
    readBarcodeFromPixmap e buffer w h tryHarder format
      = FirstOrDefault (readBarcodesFromPixmap e buffer w h tryHarder format 1) ∧
    ((∃ msg, BarcodeFormatsFromString format = Except.error msg ∧
        readBarcodesFromPixmap e buffer w h tryHarder format maxSymbols
          = [failureResult msg]) ∨
     (∃ fmts syms, BarcodeFormatsFromString format = Except.ok fmts ∧
        e ⟨buffer, w, h, ImageFormat.RGBA⟩ (makeReaderOptions tryHarder fmts maxSymbols)
          = EngineOutcome.ok syms ∧
        readBarcodesFromPixmap e buffer w h tryHarder format maxSymbols
          = syms.map marshalSymbol) ∨
     (∃ fmts msg, BarcodeFormatsFromString format = Except.ok fmts ∧
        e ⟨buffer, w, h, ImageFormat.RGBA⟩ (makeReaderOptions tryHarder fmts maxSymbols)
          = EngineOutcome.typedExcept msg ∧
        readBarcodesFromPixmap e buffer w h tryHarder format maxSymbols
          = [failureResult msg]) ∨
     (∃ fmts, BarcodeFormatsFromString format = Except.ok fmts ∧
        e ⟨buffer, w, h, ImageFormat.RGBA⟩ (makeReaderOptions tryHarder fmts maxSymbols)
          = EngineOutcome.unknownExcept ∧
        readBarcodesFromPixmap e buffer w h tryHarder format maxSymbols
          = [failureResult "Unknown error"])) := by
  refine ⟨rfl, rfl, ?_⟩
  cases hf : BarcodeFormatsFromString format with
  | error msg =>
    exact Or.inl ⟨msg, rfl, by simp [readBarcodesFromPixmap, readBarcodes, hf]⟩
  | ok fmts =>
    cases he : e ⟨buffer, w, h, ImageFormat.RGBA⟩ (makeReaderOptions tryHarder fmts maxSymbols) with
    | ok syms =>
      exact Or.inr (Or.inl ⟨fmts, syms, rfl, he,
        by simp [readBarcodesFromPixmap, readBarcodes, hf, he]⟩)
    | typedExcept msg =>
      exact Or.inr (Or.inr (Or.inl ⟨fmts, msg, rfl, he,
        by simp [readBarcodesFromPixmap, readBarcodes, hf, he]⟩))
    | unknownExcept =>
      exact Or.inr (Or.inr (Or.inr ⟨fmts, rfl, he,
        by simp [readBarcodesFromPixmap, readBarcodes, hf, he]⟩))
